import Mathlib

/-!
# dinghy: the sysfs mode monitor (`dy-sysfs-mode-monitor.c`)

A shallow embedding of the mode monitor: the mode-token scan done by
`sscanf`, the synchronous reader `dy_sysfs_mode_monitor_read_mode_sync`, the
file-monitor callback `on_file_monitor_changed` and the constructor
`dy_sysfs_mode_monitor_new`.

Conventions of the embedding.

* A C string (`char *`) is the list of its bytes before the terminating NUL;
  a null pointer is `none`.
* What the outside world answers to a call (`g_access`, `g_file_read`,
  `g_data_input_stream_read_line`, `g_file_monitor_file`) is an argument of
  the function that makes the call.
* A `GError **` out-parameter is returned as an `Option GError` (what a
  caller that passes a location receives).
* Every function returns the list of the observable steps it took (`Event`),
  in order.
* A call whose behaviour C leaves undefined (`sscanf` on a null string)
  ends the run with `Outcome.undefined`.
* `g_debug` output and reference counting are left out.
-/

namespace Dinghy

/-! ## C strings -/

/-- A `char` that occurs inside a C string: one byte other than the
terminating NUL. -/
structure CChar where
  code : Nat
  pos : 0 < code
  lt : code < 256
deriving DecidableEq, Repr

/-- The content of a non-null `char *`: the bytes before the NUL. -/
abbrev CString := List CChar

/-- The byte with the given code; codes that are no string byte give `?`.
Only used to write string literals. -/
def CChar.ofNat (n : Nat) : CChar :=
  if h : 0 < n ∧ n < 256 then ⟨n, h.1, h.2⟩ else ⟨63, by decide, by decide⟩

/-- The C string of an ASCII literal. -/
def ascii (s : String) : CString :=
  s.toList.map (fun ch => CChar.ofNat ch.toNat)

/-- The character `':'`. -/
def colon : CChar := ⟨58, by decide, by decide⟩

/-- The character `'x'`. -/
def letter_x : CChar := ⟨120, by decide, by decide⟩

/-- The character `'-'`. -/
def minus : CChar := ⟨45, by decide, by decide⟩

/-- The character of a decimal digit `d` (taken modulo 10). -/
def digitChar (d : Nat) : CChar := ⟨48 + d % 10, by omega, by omega⟩

/-- C `isdigit`. -/
def isdigit (c : CChar) : Bool := decide (48 ≤ c.code ∧ c.code ≤ 57)

/-- C `isspace` in the "C" locale: space, `\t`, `\n`, `\v`, `\f`, `\r`. -/
def isspace (c : CChar) : Bool := decide (c.code = 32 ∨ (9 ≤ c.code ∧ c.code ≤ 13))

/-- C `strcmp`: bytewise lexicographic comparison; only the sign of the
result is specified, it is given as `-1`, `0` or `1`. -/
def strcmp : CString → CString → Int
  | [], [] => 0
  | [], _ :: _ => -1
  | _ :: _, [] => 1
  | a :: as, b :: bs =>
    if a.code < b.code then -1
    else if b.code < a.code then 1
    else strcmp as bs

/-- GLib `g_strcmp0`: `strcmp` that accepts null pointers, a null pointer
sorting before every string. -/
def g_strcmp0 : Option CString → Option CString → Int
  | none, none => 0
  | none, some _ => -1
  | some _, none => 1
  | some a, some b => strcmp a b

/-- The number `n` written in decimal, most significant digit first, without
leading zeros (`0` is written `0`); `fuel` bounds the number of digits. -/
def decimalCore : Nat → Nat → CString → CString
  | 0, _, acc => acc
  | fuel + 1, n, acc =>
    if n / 10 = 0 then digitChar (n % 10) :: acc
    else decimalCore fuel (n / 10) (digitChar (n % 10) :: acc)

/-- The number `n` written in decimal. -/
def decimal (n : Nat) : CString := decimalCore (n + 1) n []

/-! ## `sscanf` -/

/-- The directives that occur in the format of the mode token:
`%c`, an ordinary character, and `%u` (`SCNu32`, and `PRIu32` which is the
same letter). -/
inductive Directive where
  | char
  | lit (ch : CChar)
  | u32
deriving DecidableEq, Repr

/-- A value stored through one of the pointer arguments of `sscanf`. -/
inductive Arg where
  | chr (c : CChar)
  | num (n : Nat)
deriving DecidableEq, Repr

/-- The digits at the head of the input, accumulated in base 10 onto `acc`;
returns the value and the input left. -/
def read_digits : CString → Nat → Nat × CString
  | [], acc => (acc, [])
  | ch :: rest, acc =>
    if isdigit ch then read_digits rest (acc * 10 + (ch.code - 48))
    else (acc, ch :: rest)

/-- The value `%u` stores into a `uint32_t` for the digit value `v` and sign
`neg`: `strtoul` on a 64-bit `unsigned long` (saturating at `ULONG_MAX`,
negating modulo `2^64`), then the conversion to 32 bits. -/
def to_u32 (neg : Bool) (v : Nat) : Nat :=
  let ul := if 2 ^ 64 ≤ v then 2 ^ 64 - 1 else if neg then (2 ^ 64 - v) % 2 ^ 64 else v
  ul % 2 ^ 32

/-- The conversion `%u`: skip white space, accept one sign, then read a non
empty run of decimal digits.  `none` is a matching failure (or end of
input). -/
def scan_u32 (s : CString) : Option (Nat × CString) :=
  let s1 := s.dropWhile isspace
  let signed : Bool × CString :=
    match s1 with
    | [] => (false, [])
    | ch :: rest =>
      if ch.code = 45 then (true, rest)
      else if ch.code = 43 then (false, rest)
      else (false, ch :: rest)
  match signed.2 with
  | [] => none
  | d :: rest =>
    if isdigit d then
      let r := read_digits (d :: rest) 0
      some (to_u32 signed.1 r.1, r.2)
    else none

/-- The assignments `sscanf` makes, in order, for a format and an input: it
stops at the first directive that fails and leaves the remaining arguments
untouched. -/
def sscanf : List Directive → CString → List Arg
  | [], _ => []
  | .char :: fmt, s =>
    match s with
    | [] => []
    | ch :: rest => .chr ch :: sscanf fmt rest
  | .lit k :: fmt, s =>
    match s with
    | [] => []
    | ch :: rest => if ch = k then sscanf fmt rest else []
  | .u32 :: fmt, s =>
    match scan_u32 s with
    | none => []
    | some (v, rest) => .num v :: sscanf fmt rest

/-- The format `"%c:%" SCNu32 "x%" SCNu32 "%c-%" PRIu32`. -/
def mode_id_format : List Directive :=
  [.char, .lit colon, .u32, .lit letter_x, .u32, .char, .lit minus, .u32]

/-! ## The monitor -/

/-- The `DyModeMonitorInfo` fields the monitor fills. -/
structure DyModeMonitorInfo where
  mode_id : Option CString
  width : Nat
  height : Nat
deriving DecidableEq, Repr

/-- The outcome of running C code: a result, or undefined behaviour. -/
inductive Outcome (α : Type) where
  | done (a : α)
  | undefined
deriving DecidableEq, Repr

/-- The source function `dy_sysfs_mode_monitor_fill_info_from_mode_id`: zero
`width` and `height`, then scan `mode_id` with the arguments
`&leading_char, &info->width, &info->height, &lacing, &refresh_rate`.
Passing a null `mode_id` to `sscanf` is undefined. -/
def dy_sysfs_mode_monitor_fill_info_from_mode_id (info : DyModeMonitorInfo) :
    Outcome DyModeMonitorInfo :=
  match info.mode_id with
  | none => .undefined
  | some str =>
    let args := sscanf mode_id_format str
    let width := match args with
      | _ :: .num w :: _ => w
      | _ => 0
    let height := match args with
      | _ :: _ :: .num h :: _ => h
      | _ => 0
    .done { mode_id := some str, width := width, height := height }

/-- The code of a `GError`: either what `g_file_error_from_errno` returns for
an `errno`, or a code chosen by the library that reported the error. -/
inductive GErrorCode where
  | g_file_error_from_errno (errno : Nat)
  | library (code : Nat)
deriving DecidableEq, Repr

/-- The error domains that occur. -/
inductive GErrorDomain where
  | G_FILE_ERROR
  | G_IO_ERROR
deriving DecidableEq, Repr

/-- A `GError`. -/
structure GError where
  domain : GErrorDomain
  code : GErrorCode
  message : CString
deriving DecidableEq, Repr

/-- A `GFile`: the path `g_file_get_path` returns for it. -/
structure GFile where
  path : CString
deriving DecidableEq, Repr

/-- A `GFileMonitor`: its rate limit in milliseconds and whether
`on_file_monitor_changed` is connected to its `changed` signal. -/
structure GFileMonitor where
  rate_limit : Nat
  changed_connected : Bool
deriving DecidableEq, Repr

/-- The monitor object a successful `g_file_monitor_file` returns: GIO's
default rate limit, no handler connected. -/
def GFileMonitor.created : GFileMonitor := { rate_limit := 800, changed_connected := false }

/-- The value of `DY_SYSFS_MODE_MONITOR_RATE_LIMIT`. -/
def DY_SYSFS_MODE_MONITOR_RATE_LIMIT : Nat := 1000

/-- The observable steps of the monitor. -/
inductive Event where
  /-- `g_file_read` was called on the monitored file. -/
  | file_read
  /-- `dy_sysfs_mode_monitor_fill_info_from_mode_id` ran on this token. -/
  | fill_info (token : CString)
  /-- `g_object_notify_by_pspec` was called for `mode-id`. -/
  | notify_raised
  /-- The `notify::mode-id` signal was emitted. -/
  | notify_emitted
  /-- A handler connected to `notify::mode-id` was called by the emission. -/
  | handler_called
  /-- `g_object_freeze_notify` was called. -/
  | freeze
  /-- `g_object_thaw_notify` was called. -/
  | thaw
  /-- `g_file_monitor_file` returned a file monitor. -/
  | watch_created
  /-- `g_warning ("Cannot read '%s': %s", path, message)`. -/
  | warning (path : CString) (message : CString)
deriving DecidableEq, Repr

/-- The `struct _DySysfsModeMonitor`, with the pieces of its `GObject` parent
that matter for notification: the notify freeze count, whether a
`notify::mode-id` is queued, and how many handlers client code has connected
to `notify::mode-id` (none on a new object). -/
structure DySysfsModeMonitor where
  freeze_count : Nat
  notify_queued : Bool
  notify_handlers : Nat
  mode_info : DyModeMonitorInfo
  filemon : Option GFileMonitor
  file : Option GFile
  path : CString
deriving DecidableEq, Repr

/-- GObject `g_object_freeze_notify`: "Increases the freeze count on object.
If the freeze count is non-zero, the emission of notify signals on object is
stopped. The signals are queued until the freeze count is decreased to
zero." -/
def g_object_freeze_notify (o : DySysfsModeMonitor) : DySysfsModeMonitor × List Event :=
  ({ o with freeze_count := o.freeze_count + 1 }, [.freeze])

/-- The emission of `notify::mode-id`: the signal, then one call for each
connected handler. -/
def emit_notify (o : DySysfsModeMonitor) : List Event :=
  .notify_emitted :: List.replicate o.notify_handlers .handler_called

/-- GObject `g_object_notify_by_pspec` for the `mode-id` property, as GLib
implements it: the call does nothing while no handler is connected to the
object's notify signal (this class overrides neither `notify` nor
`dispatch_properties_changed`), so the notification is dropped; otherwise
`notify::mode-id` is emitted, or queued while the object is frozen
(duplicates are squashed). -/
def g_object_notify_by_pspec (o : DySysfsModeMonitor) : DySysfsModeMonitor × List Event :=
  if o.notify_handlers = 0 then (o, [.notify_raised])
  else if o.freeze_count = 0 then (o, .notify_raised :: emit_notify o)
  else ({ o with notify_queued := true }, [.notify_raised])

/-- GObject `g_object_thaw_notify`: "The freeze count is decreased on object
and when it reaches zero, queued notify signals are emitted." -/
def g_object_thaw_notify (o : DySysfsModeMonitor) : DySysfsModeMonitor × List Event :=
  if o.freeze_count = 1 then
    ({ o with freeze_count := 0, notify_queued := false },
      if o.notify_queued then .thaw :: emit_notify o else [.thaw])
  else ({ o with freeze_count := o.freeze_count - 1 }, [.thaw])

/-- What `g_data_input_stream_read_line` returns: a line (`line`, no error),
a null line with no error at end of file (`eof`), or a null line with
`read_error` set (`failed`). -/
inductive ReadLine where
  | line (l : CString)
  | eof
  | failed (read_error : GError)
deriving DecidableEq, Repr

/-- What reading the monitored file gives: `g_file_read` fails, or it returns
a stream whose first `read_line` answers as given. -/
inductive FileRead where
  | failed (error : GError)
  | stream (first : ReadLine)
deriving DecidableEq, Repr

/-- The pointer `line` after `g_data_input_stream_read_line`. -/
def ReadLine.line? : ReadLine → Option CString
  | .line l => some l
  | .eof => none
  | .failed _ => none

/-- The pointer `read_error` after `g_data_input_stream_read_line`. -/
def ReadLine.read_error : ReadLine → Option GError
  | .line _ => none
  | .eof => none
  | .failed e => some e

/-- What `dy_sysfs_mode_monitor_read_mode_sync` leaves: the monitor, the
returned `gboolean`, `*error`, and the steps taken. -/
structure ReadResult where
  monitor : DySysfsModeMonitor
  success : Bool
  error : Option GError
  trace : List Event
deriving DecidableEq, Repr

/-- The source function `dy_sysfs_mode_monitor_read_mode_sync`. -/
def dy_sysfs_mode_monitor_read_mode_sync (monitor : DySysfsModeMonitor) (fs : FileRead) :
    Outcome ReadResult :=
  match fs with
  | .failed e =>
    -- if (!stream) return FALSE;
    .done { monitor := monitor, success := false, error := some e, trace := [.file_read] }
  | .stream first =>
    let line := first.line?
    let read_error := first.read_error
    -- if (!line && read_error) { *error = read_error; success = FALSE; }
    let failed := line.isNone && read_error.isSome
    let success := !failed
    let error := if failed then read_error else none
    if g_strcmp0 monitor.mode_info.mode_id line ≠ 0 then
      -- Value has changed. Update and notify.
      let info := { monitor.mode_info with mode_id := line }
      match dy_sysfs_mode_monitor_fill_info_from_mode_id info with
      | .undefined => .undefined
      | .done info =>
        let notified := g_object_notify_by_pspec { monitor with mode_info := info }
        .done { monitor := notified.1, success := success, error := error,
                trace := .file_read :: .fill_info (line.getD []) :: notified.2 }
    else
      .done { monitor := monitor, success := success, error := error, trace := [.file_read] }

/-- The values of `GFileMonitorEvent`. -/
inductive GFileMonitorEvent where
  | CHANGED
  | CHANGES_DONE_HINT
  | DELETED
  | CREATED
  | ATTRIBUTE_CHANGED
  | PRE_UNMOUNT
  | UNMOUNTED
  | MOVED
  | RENAMED
  | MOVED_IN
  | MOVED_OUT
deriving DecidableEq, Repr

/-- The source function `on_file_monitor_changed`: on `CHANGES_DONE_HINT`
read the mode and warn when the read fails.  `fs` is what the file gives if
it is read. -/
def on_file_monitor_changed (event : GFileMonitorEvent) (fs : FileRead)
    (monitor : DySysfsModeMonitor) : Outcome (DySysfsModeMonitor × List Event) :=
  if event = .CHANGES_DONE_HINT then
    match dy_sysfs_mode_monitor_read_mode_sync monitor fs with
    | .undefined => .undefined
    | .done r =>
      if r.success then .done (r.monitor, r.trace)
      else
        match r.error with
        | none => .undefined
        | some e => .done (r.monitor, r.trace ++ [.warning r.monitor.path e.message])
  else .done (monitor, [])

/-- The events delivered to the `changed` handler, in order, each with what
the file gives at that moment. -/
def run (monitor : DySysfsModeMonitor) :
    List (GFileMonitorEvent × FileRead) → Outcome (DySysfsModeMonitor × List Event)
  | [] => .done (monitor, [])
  | (event, fs) :: rest =>
    match on_file_monitor_changed event fs monitor with
    | .undefined => .undefined
    | .done (m, tr) =>
      match run m rest with
      | .undefined => .undefined
      | .done (m', tr') => .done (m', tr ++ tr')

/-- What the outside world answers during `dy_sysfs_mode_monitor_new`:
`g_access (path, R_OK)` (`none` for 0, `some errno` for -1), the read of the
file, and `g_file_monitor_file` (`none` for a monitor, `some e` for NULL with
the error `e`). -/
structure NewEnv where
  g_access : Option Nat
  read : FileRead
  g_file_monitor_file : Option GError
deriving DecidableEq, Repr

/-- What `dy_sysfs_mode_monitor_new` leaves: the returned pointer, `*error`,
and the steps taken. -/
structure NewResult where
  monitor : Option DySysfsModeMonitor
  error : Option GError
  trace : List Event
deriving DecidableEq, Repr

/-- The object `g_object_new (DY_TYPE_SYSFS_MODE_MONITOR, NULL)` returns:
zero-filled instance, notifications not frozen, no handler connected. -/
def g_object_new : DySysfsModeMonitor :=
  { freeze_count := 0, notify_queued := false, notify_handlers := 0,
    mode_info := { mode_id := none, width := 0, height := 0 },
    filemon := none, file := none, path := [] }

/-- The source function `dy_sysfs_mode_monitor_new`. -/
def dy_sysfs_mode_monitor_new (file : Option GFile) (env : NewEnv) : Outcome NewResult :=
  match file with
  | none =>
    -- g_return_val_if_fail (file != NULL, NULL);
    .done { monitor := none, error := none, trace := [] }
  | some f =>
    let monitor := { g_object_new with file := some f, path := f.path }
    match env.g_access with
    | some errno =>
      .done { monitor := none,
              error := some { domain := .G_FILE_ERROR,
                              code := .g_file_error_from_errno errno,
                              message := monitor.path },
              trace := [] }
    | none =>
      let frozen := g_object_freeze_notify monitor
      match dy_sysfs_mode_monitor_read_mode_sync frozen.1 env.read with
      | .undefined => .undefined
      | .done r =>
        if !r.success then
          .done { monitor := none, error := r.error, trace := frozen.2 ++ r.trace }
        else
          match env.g_file_monitor_file with
          | some e =>
            .done { monitor := none, error := some e, trace := frozen.2 ++ r.trace }
          | none =>
            let filemon : GFileMonitor :=
              { GFileMonitor.created with
                rate_limit := DY_SYSFS_MODE_MONITOR_RATE_LIMIT, changed_connected := true }
            let thawed := g_object_thaw_notify { r.monitor with filemon := some filemon }
            .done { monitor := some thawed.1, error := r.error,
                    trace := frozen.2 ++ r.trace ++ [.watch_created] ++ thawed.2 }

/-- The cached `width` and `height` are those the parser gives for the cached
`mode_id`, and are zero while no `mode_id` is cached. -/
def Consistent (info : DyModeMonitorInfo) : Prop :=
  match info.mode_id with
  | none => info.width = 0 ∧ info.height = 0
  | some _ => dy_sysfs_mode_monitor_fill_info_from_mode_id info = .done info

instance (info : DyModeMonitorInfo) : Decidable (Consistent info) := by
  unfold Consistent
  split <;> infer_instance

/-- The character `'+'`. -/
def plus : CChar := ⟨43, by decide, by decide⟩

/-- The input starts with a number as `%u` reads one: after optional white
space and one optional sign comes a decimal digit. -/
def starts_number (s : CString) : Bool :=
  match s.dropWhile isspace with
  | [] => false
  | c :: rest =>
    if c = minus ∨ c = plus then
      match rest with
      | [] => false
      | d :: _ => isdigit d
    else isdigit c

/-- The line reaches the width of the mode pattern: a character, `':'`, then
a number. -/
def reaches_width (l : CString) : Bool :=
  match l with
  | _ :: k :: rest => decide (k = colon) && starts_number rest
  | _ => false

/-- The input goes on to the height of the mode pattern: `'x'`, then a
number. -/
def reaches_height (tail : CString) : Bool :=
  match tail with
  | k :: rest => decide (k = letter_x) && starts_number rest
  | [] => false

/-- The input is empty or starts with a character that is no decimal digit. -/
def no_digit_ahead (s : CString) : Bool :=
  match s with
  | [] => true
  | c :: _ => !isdigit c

/-! ## Sample values -/

/-- A monitor whose cached mode is `D:1920x1080i-60`, 1920 by 1080, as the
constructor returns it. -/
def monitor_1080 : DySysfsModeMonitor :=
  { freeze_count := 0, notify_queued := false, notify_handlers := 0,
    mode_info := { mode_id := some (ascii "D:1920x1080i-60"), width := 1920, height := 1080 },
    filemon := some { rate_limit := 1000, changed_connected := true },
    file := some { path := ascii "/sys/class/display/mode" },
    path := ascii "/sys/class/display/mode" }

/-- The monitor `monitor_1080` after client code connected one handler to
`notify::mode-id`. -/
def monitor_1080_watched : DySysfsModeMonitor := { monitor_1080 with notify_handlers := 1 }

/-- The file handed to the constructor in the examples. -/
def mode_file : GFile := { path := ascii "/sys/class/display/mode" }

/-- An I/O error as GIO reports it. -/
def io_error : GError :=
  { domain := .G_IO_ERROR, code := .library 0, message := ascii "Input/output error" }

/-- The event is not a settled one, or its read returns a line, or its read
fails at `g_file_read`. -/
def line_or_open_failure (e : GFileMonitorEvent × FileRead) : Bool :=
  match e with
  | (.CHANGES_DONE_HINT, .stream (.line _)) => true
  | (.CHANGES_DONE_HINT, .failed _) => true
  | (.CHANGES_DONE_HINT, _) => false
  | _ => true

/-! # Theorems -/

/-! ## Comparison of strings -/

theorem CChar.eq_of_code_eq {a b : CChar} (h : a.code = b.code) : a = b := by
  cases a; cases b; simp_all

theorem strcmp_eq_zero_iff (a b : CString) : strcmp a b = 0 ↔ a = b := by
  induction a generalizing b with
  | nil => cases b <;> simp [strcmp]
  | cons x xs ih =>
    cases b with
    | nil => simp [strcmp]
    | cons y ys =>
      simp only [strcmp, List.cons.injEq]
      by_cases h1 : x.code < y.code
      · have : x ≠ y := fun e => by subst e; omega
        simp [h1, this]
      · by_cases h2 : y.code < x.code
        · have : x ≠ y := fun e => by subst e; omega
          simp [h1, h2, this]
        · have hxy : x = y := CChar.eq_of_code_eq (by omega)
          simp [h1, h2, hxy, ih]

theorem g_strcmp0_eq_zero_iff (a b : Option CString) : g_strcmp0 a b = 0 ↔ a = b := by
  cases a <;> cases b <;> simp [g_strcmp0, strcmp_eq_zero_iff]

/-! ## The reader, case by case -/

theorem read_mode_sync_same (monitor : DySysfsModeMonitor) (first : ReadLine)
    (h : monitor.mode_info.mode_id = first.line?) :
    dy_sysfs_mode_monitor_read_mode_sync monitor (.stream first) =
      .done { monitor := monitor,
              success := !(first.line?.isNone && first.read_error.isSome),
              error := if (first.line?.isNone && first.read_error.isSome) = true
                       then first.read_error else none,
              trace := [.file_read] } := by
  have h0 : g_strcmp0 monitor.mode_info.mode_id first.line? = 0 :=
    (g_strcmp0_eq_zero_iff _ _).2 h
  simp [dy_sysfs_mode_monitor_read_mode_sync, h0]

theorem fill_info_some (l : CString) (w h : Nat) :
    ∃ w' h', dy_sysfs_mode_monitor_fill_info_from_mode_id ⟨some l, w, h⟩ = .done ⟨some l, w', h'⟩ := by
  simp [dy_sysfs_mode_monitor_fill_info_from_mode_id]

theorem fill_info_indep (l : CString) (w h w' h' : Nat) :
    dy_sysfs_mode_monitor_fill_info_from_mode_id ⟨some l, w, h⟩ =
      dy_sysfs_mode_monitor_fill_info_from_mode_id ⟨some l, w', h'⟩ := by
  simp [dy_sysfs_mode_monitor_fill_info_from_mode_id]

theorem read_mode_sync_line_changed (monitor : DySysfsModeMonitor) (l : CString)
    (info : DyModeMonitorInfo)
    (h : monitor.mode_info.mode_id ≠ some l)
    (hinfo : dy_sysfs_mode_monitor_fill_info_from_mode_id ⟨some l, 0, 0⟩ = .done info) :
    dy_sysfs_mode_monitor_read_mode_sync monitor (.stream (.line l)) =
      .done { monitor := (g_object_notify_by_pspec { monitor with mode_info := info }).1,
              success := true, error := none,
              trace := .file_read :: .fill_info l ::
                (g_object_notify_by_pspec { monitor with mode_info := info }).2 } := by
  have h0 : g_strcmp0 monitor.mode_info.mode_id (some l) ≠ 0 :=
    fun e => h ((g_strcmp0_eq_zero_iff _ _).1 e)
  have h1 : dy_sysfs_mode_monitor_fill_info_from_mode_id
      { monitor.mode_info with mode_id := some l } = .done info := by
    rw [← hinfo]; exact fill_info_indep _ _ _ _ _
  simp [dy_sysfs_mode_monitor_read_mode_sync, ReadLine.line?, ReadLine.read_error, h0, h1]

theorem read_mode_sync_null_changed (monitor : DySysfsModeMonitor) (first : ReadLine)
    (hl : first.line? = none) (h : monitor.mode_info.mode_id ≠ none) :
    dy_sysfs_mode_monitor_read_mode_sync monitor (.stream first) = .undefined := by
  have h0 : g_strcmp0 monitor.mode_info.mode_id none ≠ 0 :=
    fun e => h ((g_strcmp0_eq_zero_iff _ _).1 e)
  simp [dy_sysfs_mode_monitor_read_mode_sync, hl, h0,
    dy_sysfs_mode_monitor_fill_info_from_mode_id]

theorem notify_without_handler_dropped (o : DySysfsModeMonitor) (h : o.notify_handlers = 0) :
    g_object_notify_by_pspec o = (o, [.notify_raised]) := by
  simp [g_object_notify_by_pspec, h]

theorem notify_with_handler_waits_for_thaw :
    (g_object_notify_by_pspec { monitor_1080_watched with freeze_count := 1 }).2 =
        [.notify_raised] ∧
      (g_object_thaw_notify
        (g_object_notify_by_pspec { monitor_1080_watched with freeze_count := 1 }).1).2 =
        [.thaw, .notify_emitted, .handler_called] := by
  constructor <;> rfl

theorem notify_by_pspec_mode_info (o : DySysfsModeMonitor) :
    (g_object_notify_by_pspec o).1.mode_info = o.mode_info := by
  unfold g_object_notify_by_pspec; split_ifs <;> rfl

theorem notify_by_pspec_raised (o : DySysfsModeMonitor) :
    (g_object_notify_by_pspec o).2.count .notify_raised = 1 := by
  unfold g_object_notify_by_pspec
  split_ifs <;> simp [List.count_cons, emit_notify, List.count_replicate]

/-- C1: when the line read differs from the cached `mode_id`, the reader
returns success without an error, caches the line, sets width and height to
what the parser gives for the line, and raises exactly one `mode-id`
notification.  On an unfrozen monitor each connected handler is called once;
on a frozen one nothing is emitted and no handler is called, the
notification being queued when a handler is connected. -/
theorem read_mode_sync_updates_on_change (monitor : DySysfsModeMonitor) (l : CString)
    (h : monitor.mode_info.mode_id ≠ some l) :
    ∃ r, dy_sysfs_mode_monitor_read_mode_sync monitor (.stream (.line l)) = .done r ∧
      r.success = true ∧ r.error = none ∧
      r.monitor.mode_info.mode_id = some l ∧
      (∀ w h, dy_sysfs_mode_monitor_fill_info_from_mode_id ⟨some l, w, h⟩ =
        .done r.monitor.mode_info) ∧
      r.trace.count .notify_raised = 1 ∧
      (monitor.freeze_count = 0 →
        r.trace.count .handler_called = monitor.notify_handlers ∧
        (monitor.notify_handlers ≠ 0 → r.trace.count .notify_emitted = 1)) ∧
      (monitor.freeze_count ≠ 0 →
        r.trace.count .notify_emitted = 0 ∧ r.trace.count .handler_called = 0 ∧
        (monitor.notify_handlers ≠ 0 → r.monitor.notify_queued = true)) := by
  obtain ⟨w', h', hinfo⟩ := fill_info_some l 0 0
  refine ⟨_, read_mode_sync_line_changed monitor l _ h hinfo, rfl, rfl, ?_, ?_, ?_, ?_, ?_⟩
  · simp [notify_by_pspec_mode_info]
  · intro w h
    simp only [notify_by_pspec_mode_info]
    rw [← hinfo]; exact fill_info_indep _ _ _ _ _
  · simp only [List.count_cons, notify_by_pspec_raised]
    simp
  · intro hz
    by_cases hh : monitor.notify_handlers = 0
    · simp [g_object_notify_by_pspec, hh, List.count_cons]
    · simp [g_object_notify_by_pspec, hz, hh, List.count_cons, emit_notify,
        List.count_replicate]
  · intro hz
    by_cases hh : monitor.notify_handlers = 0
    · simp [g_object_notify_by_pspec, hh, List.count_cons]
    · simp [g_object_notify_by_pspec, hz, hh, List.count_cons]

theorem read_mode_sync_updates_on_change_witness :
    ∃ r, dy_sysfs_mode_monitor_read_mode_sync monitor_1080_watched
        (.stream (.line (ascii "D:1280x720p-60"))) = .done r ∧
      r.success = true ∧ r.error = none ∧
      r.monitor.mode_info.mode_id = some (ascii "D:1280x720p-60") ∧
      (∀ w h, dy_sysfs_mode_monitor_fill_info_from_mode_id ⟨some (ascii "D:1280x720p-60"), w, h⟩ =
        .done r.monitor.mode_info) ∧
      r.trace.count .notify_raised = 1 ∧
      (monitor_1080_watched.freeze_count = 0 →
        r.trace.count .handler_called = monitor_1080_watched.notify_handlers ∧
        (monitor_1080_watched.notify_handlers ≠ 0 → r.trace.count .notify_emitted = 1)) ∧
      (monitor_1080_watched.freeze_count ≠ 0 →
        r.trace.count .notify_emitted = 0 ∧ r.trace.count .handler_called = 0 ∧
        (monitor_1080_watched.notify_handlers ≠ 0 → r.monitor.notify_queued = true)) :=
  read_mode_sync_updates_on_change monitor_1080_watched (ascii "D:1280x720p-60") (by decide)

/-- C2: once a read has succeeded, reading the same content again (a line, or
an empty file with nothing cached) leaves the monitor as it is, and its only
step is opening the file: the parser is not run and no notification is
raised or emitted. -/
theorem read_mode_sync_idempotent (monitor : DySysfsModeMonitor) (fs : FileRead)
    (r : ReadResult)
    (h : dy_sysfs_mode_monitor_read_mode_sync monitor fs = .done r)
    (hs : r.success = true) :
    dy_sysfs_mode_monitor_read_mode_sync r.monitor fs =
      .done { monitor := r.monitor, success := true, error := none, trace := [.file_read] } := by
  cases fs with
  | failed e =>
    simp [dy_sysfs_mode_monitor_read_mode_sync] at h
    subst h; simp at hs
  | stream first =>
    cases first with
    | line l =>
      by_cases hc : monitor.mode_info.mode_id = some l
      · rw [read_mode_sync_same monitor (.line l) hc] at h
        injection h with h
        subst h
        rw [read_mode_sync_same monitor (.line l) hc]
        simp [ReadLine.line?, ReadLine.read_error]
      · obtain ⟨w', h', hinfo⟩ := fill_info_some l 0 0
        rw [read_mode_sync_line_changed monitor l _ hc hinfo] at h
        injection h with h
        subst h
        rw [read_mode_sync_same _ (.line l) (by simp [notify_by_pspec_mode_info, ReadLine.line?])]
        simp [ReadLine.line?, ReadLine.read_error]
    | eof =>
      by_cases hc : monitor.mode_info.mode_id = none
      · rw [read_mode_sync_same monitor .eof hc] at h
        injection h with h
        subst h
        rw [read_mode_sync_same monitor .eof hc]
        simp [ReadLine.line?, ReadLine.read_error]
      · rw [read_mode_sync_null_changed monitor .eof rfl hc] at h
        cases h
    | failed e =>
      by_cases hc : monitor.mode_info.mode_id = none
      · rw [read_mode_sync_same monitor (.failed e) hc] at h
        injection h with h
        subst h
        simp [ReadLine.line?, ReadLine.read_error] at hs
      · rw [read_mode_sync_null_changed monitor (.failed e) rfl hc] at h
        cases h

theorem read_mode_sync_idempotent_witness :
    dy_sysfs_mode_monitor_read_mode_sync monitor_1080
        (.stream (.line (ascii "D:1920x1080i-60"))) =
      .done { monitor := monitor_1080, success := true, error := none, trace := [.file_read] } :=
  read_mode_sync_idempotent monitor_1080 (.stream (.line (ascii "D:1920x1080i-60")))
    { monitor := monitor_1080, success := true, error := none, trace := [.file_read] }
    (by decide) rfl

/-- C3: with `D:1920x1080i-60` cached, a read whose `read_line` fails does
not leave the monitor as it was: the null line compares different from the
cached token, the token is dropped and the parser is entered on a null
`mode_id`, which is undefined.  A failing `g_file_read` does return early
with the monitor untouched and nothing raised. -/
theorem read_mode_sync_line_failure_mutates :
    dy_sysfs_mode_monitor_read_mode_sync monitor_1080 (.stream (.failed io_error)) =
        .undefined ∧
      dy_sysfs_mode_monitor_read_mode_sync monitor_1080 (.failed io_error) =
        .done { monitor := monitor_1080, success := false, error := some io_error,
                trace := [.file_read] } := by
  constructor
  · exact read_mode_sync_null_changed _ _ rfl (by decide)
  · rfl

/-- C8: with `D:1920x1080i-60` cached, a settled event whose `read_line`
fails does not leave a live monitor: the callback runs into the undefined
parse of a null `mode_id`, and so does every run of events that starts with
it. -/
theorem settled_event_line_failure_undefined :
    on_file_monitor_changed .CHANGES_DONE_HINT (.stream (.failed io_error)) monitor_1080 =
        .undefined ∧
      run monitor_1080
        [(.CHANGES_DONE_HINT, .stream (.failed io_error)),
         (.CHANGES_DONE_HINT, .stream (.line (ascii "D:1280x720p-60")))] = .undefined := by
  have h : dy_sysfs_mode_monitor_read_mode_sync monitor_1080 (.stream (.failed io_error)) =
      .undefined := read_mode_sync_null_changed _ _ rfl (by decide)
  have h2 : on_file_monitor_changed .CHANGES_DONE_HINT (.stream (.failed io_error))
      monitor_1080 = .undefined := by
    simp [on_file_monitor_changed, h]
  exact ⟨h2, by simp [run, h2]⟩

/-- C9: when `g_access` fails, the constructor returns no monitor and the
`G_FILE_ERROR` whose code comes from the `errno` and whose message is the
path, whatever the file and the watch would have answered; it takes no
further step: the file is not read and no watch is created. -/
theorem new_unreadable_path (f : GFile) (env : NewEnv) (errno : Nat)
    (h : env.g_access = some errno) :
    dy_sysfs_mode_monitor_new (some f) env =
      .done { monitor := none,
              error := some { domain := .G_FILE_ERROR,
                              code := .g_file_error_from_errno errno,
                              message := f.path },
              trace := [] } := by
  simp [dy_sysfs_mode_monitor_new, h, g_object_new]

theorem new_unreadable_path_witness :
    dy_sysfs_mode_monitor_new (some mode_file)
        { g_access := some 13, read := .stream (.line (ascii "D:1920x1080i-60")),
          g_file_monitor_file := none } =
      .done { monitor := none,
              error := some { domain := .G_FILE_ERROR,
                              code := .g_file_error_from_errno 13,
                              message := mode_file.path },
              trace := [] } :=
  new_unreadable_path mode_file _ 13 rfl

/-! ## Scanning numbers -/

theorem isdigit_digitChar (d : Nat) : isdigit (digitChar d) = true := by
  simp only [isdigit, digitChar, decide_eq_true_eq]; omega

theorem digitChar_value (d : Nat) : (digitChar d).code - 48 = d % 10 := by
  simp only [digitChar]; omega

theorem read_digits_stop (s : CString) (k : Nat) (h : no_digit_ahead s = true) :
    read_digits s k = (k, s) := by
  cases s with
  | nil => rfl
  | cons c t =>
    have hc : isdigit c = false := by simpa [no_digit_ahead] using h
    simp [read_digits, hc]

theorem decimalCore_read (fuel : Nat) : ∀ (n : Nat) (acc rest : CString), n < fuel →
    read_digits (decimalCore fuel n acc ++ rest) 0 = read_digits (acc ++ rest) n := by
  induction fuel with
  | zero => intro n acc rest h; omega
  | succ fuel ih =>
    intro n acc rest h
    by_cases h10 : n / 10 = 0
    · have hlt : n < 10 := by omega
      simp only [decimalCore, h10, if_true, List.cons_append, read_digits, isdigit_digitChar,
        digitChar_value]
      congr 1; omega
    · simp only [decimalCore, h10, if_false]
      rw [ih (n / 10) _ rest (by omega)]
      simp only [List.cons_append, read_digits, isdigit_digitChar, digitChar_value, if_true]
      congr 1; omega

theorem decimalCore_head (fuel : Nat) : ∀ (n : Nat) (acc : CString), n < fuel →
    ∃ c tail, decimalCore fuel n acc = c :: tail ∧ isdigit c = true := by
  induction fuel with
  | zero => intro n acc h; omega
  | succ fuel ih =>
    intro n acc h
    by_cases h10 : n / 10 = 0
    · exact ⟨digitChar (n % 10), acc, by simp only [decimalCore, h10, if_true], isdigit_digitChar _⟩
    · simp only [decimalCore, h10, if_false]
      exact ih _ _ (by omega)

theorem not_isspace_of_isdigit {c : CChar} (h : isdigit c = true) : isspace c = false := by
  simp only [isdigit, decide_eq_true_eq] at h
  simp only [isspace, decide_eq_false_iff_not]; omega

theorem scan_u32_digit_head (c : CChar) (tail : CString) (h : isdigit c = true) :
    scan_u32 (c :: tail) =
      some (to_u32 false (read_digits (c :: tail) 0).1, (read_digits (c :: tail) 0).2) := by
  have hs := not_isspace_of_isdigit h
  have h45 : c.code ≠ 45 := by
    simp only [isdigit, decide_eq_true_eq] at h; omega
  have h43 : c.code ≠ 43 := by
    simp only [isdigit, decide_eq_true_eq] at h; omega
  simp [scan_u32, List.dropWhile, hs, h45, h43, h]

theorem to_u32_of_lt (w : Nat) (h : w < 2 ^ 32) : to_u32 false w = w := by
  have : ¬ (2 ^ 64 ≤ w) := by omega
  simp only [to_u32, this, if_false, Bool.false_eq_true]
  omega

theorem scan_u32_decimal (w : Nat) (rest : CString) (hw : w < 2 ^ 32)
    (hrest : no_digit_ahead rest = true) :
    scan_u32 (decimal w ++ rest) = some (w, rest) := by
  obtain ⟨c, tail, hct, hc⟩ := decimalCore_head (w + 1) w [] (by omega)
  have hread : read_digits (decimal w ++ rest) 0 = (w, rest) := by
    unfold decimal
    rw [decimalCore_read (w + 1) w [] rest (by omega)]
    exact read_digits_stop _ _ hrest
  have hd : decimal w ++ rest = c :: (tail ++ rest) := by
    unfold decimal; rw [hct]; rfl
  rw [hd] at hread ⊢
  rw [scan_u32_digit_head c _ hc, hread, to_u32_of_lt w hw]

theorem scan_u32_none_of_not_starts (s : CString) (h : starts_number s = false) :
    scan_u32 s = none := by
  unfold starts_number at h
  unfold scan_u32
  cases hs : s.dropWhile isspace with
  | nil => simp
  | cons ch rest =>
    rw [hs] at h
    by_cases h45 : ch.code = 45
    · have hch : ch = minus := CChar.eq_of_code_eq h45
      cases rest with
      | nil => simp [h45]
      | cons d tail =>
        have hd : isdigit d = false := by simpa [hch] using h
        simp [h45, hd]
    · by_cases h43 : ch.code = 43
      · have hch : ch = plus := CChar.eq_of_code_eq h43
        cases rest with
        | nil => simp [h43]
        | cons d tail =>
          have hd : isdigit d = false := by simpa [hch] using h
          simp [h43, hd]
      · have hm : ch ≠ minus := fun e => h45 (by rw [e]; rfl)
        have hp : ch ≠ plus := fun e => h43 (by rw [e]; rfl)
        have hd : isdigit ch = false := by simpa [hm, hp] using h
        simp [h45, h43, hd]

theorem scan_u32_some_of_starts (s : CString) (h : starts_number s = true) :
    ∃ v rest, scan_u32 s = some (v, rest) := by
  cases hn : scan_u32 s with
  | some p => exact ⟨p.1, p.2, rfl⟩
  | none =>
    exfalso
    unfold starts_number at h
    unfold scan_u32 at hn
    cases hs : s.dropWhile isspace with
    | nil => rw [hs] at h; simp at h
    | cons ch rest =>
      rw [hs] at h hn
      by_cases h45 : ch.code = 45
      · have hch : ch = minus := CChar.eq_of_code_eq h45
        cases rest with
        | nil => simp [hch] at h
        | cons d tail =>
          have hd : isdigit d = true := by simpa [hch] using h
          simp [h45, hd] at hn
      · by_cases h43 : ch.code = 43
        · have hch : ch = plus := CChar.eq_of_code_eq h43
          cases rest with
          | nil => simp [hch] at h
          | cons d tail =>
            have hd : isdigit d = true := by simpa [hch] using h
            simp [h43, hd] at hn
        · have hm : ch ≠ minus := fun e => h45 (by rw [e]; rfl)
          have hp : ch ≠ plus := fun e => h43 (by rw [e]; rfl)
          have hd : isdigit ch = true := by simpa [hm, hp] using h
          simp [h45, h43, hd] at hn

/-! ## The decimal writing of a number -/

theorem ofNat_digitChar (d : Nat) (h : d < 10) :
    CChar.ofNat (Nat.digitChar d).toNat = digitChar d := by
  interval_cases d <;> rfl

theorem decimalCore_eq_toDigitsCore (fuel : Nat) : ∀ (n : Nat) (acc : List Char),
    decimalCore fuel n (acc.map (fun ch => CChar.ofNat ch.toNat)) =
      (Nat.toDigitsCore 10 fuel n acc).map (fun ch => CChar.ofNat ch.toNat) := by
  induction fuel with
  | zero => intro n acc; rfl
  | succ fuel ih =>
    intro n acc
    have hd := ofNat_digitChar (n % 10) (Nat.mod_lt _ (by decide))
    have hmod : n % 10 % 10 = n % 10 := Nat.mod_mod _ _
    by_cases h10 : n / 10 = 0
    · simp only [decimalCore, Nat.toDigitsCore, h10, if_true, List.map_cons, hd]
    · simp only [decimalCore, Nat.toDigitsCore, h10, if_false]
      rw [← ih (n / 10) (Nat.digitChar (n % 10) :: acc)]
      simp only [List.map_cons, hd, digitChar, hmod]

/-- The digits `decimal` writes are those Lean prints for the number. -/
theorem decimal_eq_toDigits (n : Nat) :
    decimal n = (Nat.toDigits 10 n).map (fun ch => CChar.ofNat ch.toNat) :=
  decimalCore_eq_toDigitsCore (n + 1) n []

theorem decimal_examples :
    decimal 0 = ascii "0" ∧ decimal 1920 = ascii "1920" ∧ decimal 1080 = ascii "1080" ∧
      decimal 4294967295 = ascii "4294967295" := by
  refine ⟨?_, ?_, ?_, ?_⟩ <;> rfl

theorem mode_token_example :
    CChar.ofNat 72 :: colon ::
        (decimal 3840 ++ letter_x :: (decimal 2160 ++ CChar.ofNat 112 :: minus :: ascii "30")) =
      ascii "H:3840x2160p-30" := by
  rfl

/-! ## The parser on well-formed and on malformed tokens -/

theorem sscanf_no_width (l : CString) (h : reaches_width l = false) :
    sscanf mode_id_format l = [] ∨ ∃ c, sscanf mode_id_format l = [.chr c] := by
  cases l with
  | nil => left; rfl
  | cons c t =>
    right; refine ⟨c, ?_⟩
    cases t with
    | nil => rfl
    | cons k rest =>
      by_cases hk : k = colon
      · have hn : starts_number rest = false := by simpa [reaches_width, hk] using h
        simp [sscanf, mode_id_format, hk, scan_u32_none_of_not_starts rest hn]
      · simp [sscanf, mode_id_format, hk]

theorem fill_info_no_width (l : CString) (w h : Nat) (hl : reaches_width l = false) :
    dy_sysfs_mode_monitor_fill_info_from_mode_id ⟨some l, w, h⟩ = .done ⟨some l, 0, 0⟩ := by
  rcases sscanf_no_width l hl with h0 | ⟨c, h1⟩
  · simp [dy_sysfs_mode_monitor_fill_info_from_mode_id, h0]
  · simp [dy_sysfs_mode_monitor_fill_info_from_mode_id, h1]

theorem fill_info_width_only (c : CChar) (w : Nat) (tail : CString) (pw ph : Nat)
    (hw : w < 2 ^ 32) (hd : no_digit_ahead tail = true) (ht : reaches_height tail = false) :
    dy_sysfs_mode_monitor_fill_info_from_mode_id
        ⟨some (c :: colon :: (decimal w ++ tail)), pw, ph⟩ =
      .done ⟨some (c :: colon :: (decimal w ++ tail)), w, 0⟩ := by
  have hargs : sscanf mode_id_format (c :: colon :: (decimal w ++ tail)) = [.chr c, .num w] := by
    simp only [sscanf, mode_id_format, if_true, scan_u32_decimal w tail hw hd]
    cases tail with
    | nil => rfl
    | cons k rest =>
      by_cases hk : k = letter_x
      · have hn : starts_number rest = false := by simpa [reaches_height, hk] using ht
        simp [hk, scan_u32_none_of_not_starts rest hn]
      · simp [hk]
  simp [dy_sysfs_mode_monitor_fill_info_from_mode_id, hargs]

theorem fill_info_width_height (c l : CChar) (w h : Nat) (r : CString) (pw ph : Nat)
    (hw : w < 2 ^ 32) (hh : h < 2 ^ 32) (hl : isdigit l = false) :
    dy_sysfs_mode_monitor_fill_info_from_mode_id
        ⟨some (c :: colon :: (decimal w ++ letter_x :: (decimal h ++ l :: minus :: r))), pw, ph⟩ =
      .done ⟨some (c :: colon :: (decimal w ++ letter_x :: (decimal h ++ l :: minus :: r))),
        w, h⟩ := by
  have hx : no_digit_ahead (letter_x :: (decimal h ++ l :: minus :: r)) = true := by
    simp [no_digit_ahead, isdigit, letter_x]
  have hlr : no_digit_ahead (l :: minus :: r) = true := by
    simp [no_digit_ahead, hl]
  have hargs : ∃ rest, sscanf mode_id_format
      (c :: colon :: (decimal w ++ letter_x :: (decimal h ++ l :: minus :: r))) =
      .chr c :: .num w :: .num h :: rest := by
    simp only [sscanf, mode_id_format, if_true, scan_u32_decimal w _ hw hx,
      scan_u32_decimal h _ hh hlr]
    exact ⟨_, rfl⟩
  obtain ⟨rest, hargs⟩ := hargs
  simp [dy_sysfs_mode_monitor_fill_info_from_mode_id, hargs]

/-! ## The cached fields follow the cached token -/

theorem consistent_fill (l : CString) (w h : Nat) (info : DyModeMonitorInfo)
    (hc : Consistent ⟨some l, w, h⟩)
    (hinfo : dy_sysfs_mode_monitor_fill_info_from_mode_id ⟨some l, 0, 0⟩ = .done info) :
    (⟨some l, w, h⟩ : DyModeMonitorInfo) = info := by
  have h1 : dy_sysfs_mode_monitor_fill_info_from_mode_id ⟨some l, w, h⟩ = .done ⟨some l, w, h⟩ := hc
  rw [fill_info_indep l w h 0 0, hinfo] at h1
  injection h1 with h1
  exact h1.symm

theorem fill_info_consistent (l : CString) (w h : Nat) (info : DyModeMonitorInfo)
    (hinfo : dy_sysfs_mode_monitor_fill_info_from_mode_id ⟨some l, w, h⟩ = .done info) :
    Consistent info := by
  obtain ⟨w', h', hw⟩ := fill_info_some l w h
  rw [hw] at hinfo
  injection hinfo with hinfo
  subst hinfo
  show dy_sysfs_mode_monitor_fill_info_from_mode_id ⟨some l, w', h'⟩ = .done ⟨some l, w', h'⟩
  rw [fill_info_indep l w' h' w h, hw]

theorem read_mode_sync_line_info (monitor : DySysfsModeMonitor) (l : CString)
    (info : DyModeMonitorInfo) (hc : Consistent monitor.mode_info)
    (hinfo : dy_sysfs_mode_monitor_fill_info_from_mode_id ⟨some l, 0, 0⟩ = .done info) :
    ∃ r, dy_sysfs_mode_monitor_read_mode_sync monitor (.stream (.line l)) = .done r ∧
      r.success = true ∧ r.error = none ∧ r.monitor.mode_info = info := by
  by_cases hsame : monitor.mode_info.mode_id = some l
  · refine ⟨_, read_mode_sync_same monitor (.line l) hsame, ?_, ?_, ?_⟩
    · simp [ReadLine.line?, ReadLine.read_error]
    · simp [ReadLine.line?, ReadLine.read_error]
    · obtain ⟨fc, nq, nh, ⟨mid, w, h⟩, fm, fl, p⟩ := monitor
      simp only at hsame hc ⊢
      subst hsame
      exact consistent_fill l w h info hc hinfo
  · exact ⟨_, read_mode_sync_line_changed monitor l info hsame hinfo, rfl, rfl,
      notify_by_pspec_mode_info _⟩

theorem read_mode_sync_consistent (monitor : DySysfsModeMonitor) (fs : FileRead)
    (r : ReadResult) (hc : Consistent monitor.mode_info)
    (h : dy_sysfs_mode_monitor_read_mode_sync monitor fs = .done r) :
    Consistent r.monitor.mode_info := by
  cases fs with
  | failed e =>
    simp [dy_sysfs_mode_monitor_read_mode_sync] at h
    subst h; exact hc
  | stream first =>
    by_cases hsame : monitor.mode_info.mode_id = first.line?
    · rw [read_mode_sync_same monitor first hsame] at h
      injection h with h
      subst h; exact hc
    · cases first with
      | line l =>
        obtain ⟨w', h', hinfo⟩ := fill_info_some l 0 0
        rw [read_mode_sync_line_changed monitor l _ hsame hinfo] at h
        injection h with h
        subst h
        simp only [notify_by_pspec_mode_info]
        exact fill_info_consistent l 0 0 _ hinfo
      | eof =>
        rw [read_mode_sync_null_changed monitor .eof rfl hsame] at h
        cases h
      | failed e =>
        rw [read_mode_sync_null_changed monitor (.failed e) rfl hsame] at h
        cases h

/-! ## Claims on the parser -/

/-- C4: for every leading character, width and height below `2^32` written
in decimal, lacing character that is no digit and refresh text, parsing
`c:WxHl-r` gives that width and height whatever the previous ones were; in
particular `D:1920x1080i-60` gives 1920 by 1080. -/
theorem fill_info_parses_mode_token (c l : CChar) (w h : Nat) (r : CString) (pw ph : Nat)
    (hw : w < 2 ^ 32) (hh : h < 2 ^ 32) (hl : isdigit l = false) :
    dy_sysfs_mode_monitor_fill_info_from_mode_id
        ⟨some (c :: colon :: (decimal w ++ letter_x :: (decimal h ++ l :: minus :: r))), pw, ph⟩ =
      .done ⟨some (c :: colon :: (decimal w ++ letter_x :: (decimal h ++ l :: minus :: r))),
        w, h⟩ ∧
    dy_sysfs_mode_monitor_fill_info_from_mode_id ⟨some (ascii "D:1920x1080i-60"), pw, ph⟩ =
      .done ⟨some (ascii "D:1920x1080i-60"), 1920, 1080⟩ := by
  refine ⟨fill_info_width_height c l w h r pw ph hw hh hl, ?_⟩
  rw [fill_info_indep _ pw ph 0 0]
  rfl

theorem fill_info_parses_mode_token_witness :
    dy_sysfs_mode_monitor_fill_info_from_mode_id
        ⟨some (CChar.ofNat 72 :: colon ::
          (decimal 3840 ++ letter_x :: (decimal 2160 ++ CChar.ofNat 112 :: minus :: ascii "30"))),
          1920, 1080⟩ =
      .done ⟨some (CChar.ofNat 72 :: colon ::
          (decimal 3840 ++ letter_x :: (decimal 2160 ++ CChar.ofNat 112 :: minus :: ascii "30"))),
        3840, 2160⟩ ∧
    dy_sysfs_mode_monitor_fill_info_from_mode_id ⟨some (ascii "D:1920x1080i-60"), 1920, 1080⟩ =
      .done ⟨some (ascii "D:1920x1080i-60"), 1920, 1080⟩ :=
  fill_info_parses_mode_token (CChar.ofNat 72) (CChar.ofNat 112) 3840 2160 (ascii "30") 1920 1080
    (by norm_num) (by norm_num) (by decide)

/-- C5, as stated, fails: with 1920 by 1080 cached, reading `D:1280` or
`D:1280y720` leaves width 1280, the width parsed before the scan stopped,
and height 0; the state is not 0 by 0. -/
theorem reset_before_parse_keeps_parsed_width :
    (∃ r, dy_sysfs_mode_monitor_read_mode_sync monitor_1080
        (.stream (.line (ascii "D:1280"))) = .done r ∧
      r.monitor.mode_info = ⟨some (ascii "D:1280"), 1280, 0⟩ ∧
      ¬ (r.monitor.mode_info.width = 0 ∧ r.monitor.mode_info.height = 0)) ∧
    (∃ r, dy_sysfs_mode_monitor_read_mode_sync monitor_1080
        (.stream (.line (ascii "D:1280y720"))) = .done r ∧
      r.monitor.mode_info = ⟨some (ascii "D:1280y720"), 1280, 0⟩ ∧
      ¬ (r.monitor.mode_info.width = 0 ∧ r.monitor.mode_info.height = 0)) := by
  constructor
  · refine ⟨_, read_mode_sync_line_changed monitor_1080 (ascii "D:1280")
      ⟨some (ascii "D:1280"), 1280, 0⟩ (by decide) rfl, ?_, ?_⟩
    · simp [notify_by_pspec_mode_info]
    · simp [notify_by_pspec_mode_info]
  · refine ⟨_, read_mode_sync_line_changed monitor_1080 (ascii "D:1280y720")
      ⟨some (ascii "D:1280y720"), 1280, 0⟩ (by decide) rfl, ?_, ?_⟩
    · simp [notify_by_pspec_mode_info]
    · simp [notify_by_pspec_mode_info]

/-- C5, amended: when the line read is `c:W` followed by a tail that does not
go on to a height (`W` below `2^32` in decimal, the tail empty or starting
with a non-digit, and not `x` followed by a number), the read succeeds and
leaves that line cached with width `W` and height 0: no value of the
previous mode remains, and the parsed width is kept. -/
theorem read_mode_sync_width_only (monitor : DySysfsModeMonitor) (c : CChar) (w : Nat)
    (tail : CString) (hc : Consistent monitor.mode_info) (hw : w < 2 ^ 32)
    (hd : no_digit_ahead tail = true) (ht : reaches_height tail = false) :
    ∃ r, dy_sysfs_mode_monitor_read_mode_sync monitor
        (.stream (.line (c :: colon :: (decimal w ++ tail)))) = .done r ∧
      r.success = true ∧ r.error = none ∧
      r.monitor.mode_info = ⟨some (c :: colon :: (decimal w ++ tail)), w, 0⟩ :=
  read_mode_sync_line_info monitor _ _ hc (fill_info_width_only c w tail 0 0 hw hd ht)

theorem read_mode_sync_width_only_witness :
    ∃ r, dy_sysfs_mode_monitor_read_mode_sync monitor_1080
        (.stream (.line (CChar.ofNat 68 :: colon :: (decimal 1280 ++ ascii "y720")))) = .done r ∧
      r.success = true ∧ r.error = none ∧
      r.monitor.mode_info =
        ⟨some (CChar.ofNat 68 :: colon :: (decimal 1280 ++ ascii "y720")), 1280, 0⟩ :=
  read_mode_sync_width_only monitor_1080 (CChar.ofNat 68) 1280 (ascii "y720")
    (by decide) (by norm_num) (by decide) (by decide)

/-- C6: a line that does not reach the width of the mode pattern is read
with success and no error, is cached unchanged, and leaves width 0 and
height 0, for every monitor whose cached fields follow its cached token (as
they do in every state the monitor reaches). -/
theorem read_mode_sync_malformed_degrades (monitor : DySysfsModeMonitor) (l : CString)
    (hc : Consistent monitor.mode_info) (hl : reaches_width l = false) :
    ∃ r, dy_sysfs_mode_monitor_read_mode_sync monitor (.stream (.line l)) = .done r ∧
      r.success = true ∧ r.error = none ∧
      r.monitor.mode_info.mode_id = some l ∧
      r.monitor.mode_info.width = 0 ∧ r.monitor.mode_info.height = 0 := by
  obtain ⟨r, hr, hs, he, hinfo⟩ :=
    read_mode_sync_line_info monitor l _ hc (fill_info_no_width l 0 0 hl)
  exact ⟨r, hr, hs, he, by rw [hinfo], by rw [hinfo], by rw [hinfo]⟩

theorem read_mode_sync_malformed_degrades_witness :
    ∃ r, dy_sysfs_mode_monitor_read_mode_sync monitor_1080
        (.stream (.line (ascii "garbage"))) = .done r ∧
      r.success = true ∧ r.error = none ∧
      r.monitor.mode_info.mode_id = some (ascii "garbage") ∧
      r.monitor.mode_info.width = 0 ∧ r.monitor.mode_info.height = 0 :=
  read_mode_sync_malformed_degrades monitor_1080 (ascii "garbage") (by decide) (by decide)

/-! ## Construction -/

theorem new_on_line (f : GFile) (l : CString) (info : DyModeMonitorInfo)
    (hinfo : dy_sysfs_mode_monitor_fill_info_from_mode_id ⟨some l, 0, 0⟩ = .done info) :
    dy_sysfs_mode_monitor_new (some f)
        { g_access := none, read := .stream (.line l), g_file_monitor_file := none } =
      .done { monitor := some { freeze_count := 0, notify_queued := false, notify_handlers := 0,
                                mode_info := info,
                                filemon := some { rate_limit := 1000, changed_connected := true },
                                file := some f, path := f.path },
              error := none,
              trace := [.freeze, .file_read, .fill_info l, .notify_raised, .watch_created,
                        .thaw] } := by
  have hread := read_mode_sync_line_changed
    { g_object_new with file := some f, path := f.path, freeze_count := 1 } l info
    (by simp [g_object_new]) hinfo
  simp only [g_object_new] at hread
  simp [dy_sysfs_mode_monitor_new, g_object_new, g_object_freeze_notify, hread,
    g_object_notify_by_pspec, g_object_thaw_notify, GFileMonitor.created,
    DY_SYSFS_MODE_MONITOR_RATE_LIMIT, emit_notify]

theorem new_on_empty (f : GFile) :
    dy_sysfs_mode_monitor_new (some f)
        { g_access := none, read := .stream .eof, g_file_monitor_file := none } =
      .done { monitor := some { freeze_count := 0, notify_queued := false, notify_handlers := 0,
                                mode_info := ⟨none, 0, 0⟩,
                                filemon := some { rate_limit := 1000, changed_connected := true },
                                file := some f, path := f.path },
              error := none,
              trace := [.freeze, .file_read, .watch_created, .thaw] } := by
  have hread := read_mode_sync_same
    { g_object_new with file := some f, path := f.path, freeze_count := 1 } .eof
    (by simp [g_object_new, ReadLine.line?])
  simp only [g_object_new] at hread
  simp [dy_sysfs_mode_monitor_new, g_object_new, g_object_freeze_notify, hread,
    g_object_thaw_notify, GFileMonitor.created, DY_SYSFS_MODE_MONITOR_RATE_LIMIT,
    ReadLine.line?, ReadLine.read_error]

theorem new_success_cases (file : Option GFile) (env : NewEnv) (r : NewResult)
    (m : DySysfsModeMonitor)
    (h : dy_sysfs_mode_monitor_new file env = .done r) (hm : r.monitor = some m) :
    ∃ f, file = some f ∧
      ((∃ l, env = { g_access := none, read := .stream (.line l), g_file_monitor_file := none }) ∨
       env = { g_access := none, read := .stream .eof, g_file_monitor_file := none }) := by
  cases file with
  | none =>
    simp [dy_sysfs_mode_monitor_new] at h
    subst h; simp at hm
  | some f =>
    refine ⟨f, rfl, ?_⟩
    obtain ⟨acc, rd, fm⟩ := env
    cases acc with
    | some errno =>
      simp [dy_sysfs_mode_monitor_new] at h
      subst h; simp at hm
    | none =>
      cases rd with
      | failed e =>
        simp [dy_sysfs_mode_monitor_new, dy_sysfs_mode_monitor_read_mode_sync] at h
        subst h; simp at hm
      | stream first =>
        cases first with
        | failed e =>
          have hread := read_mode_sync_same
            (g_object_freeze_notify { g_object_new with file := some f, path := f.path }).1
            (.failed e) (by simp [g_object_new, g_object_freeze_notify, ReadLine.line?])
          simp [dy_sysfs_mode_monitor_new, hread, ReadLine.line?, ReadLine.read_error] at h
          subst h; simp at hm
        | eof =>
          cases fm with
          | none => right; rfl
          | some e =>
            have hread := read_mode_sync_same
              (g_object_freeze_notify { g_object_new with file := some f, path := f.path }).1
              .eof (by simp [g_object_new, g_object_freeze_notify, ReadLine.line?])
            simp [dy_sysfs_mode_monitor_new, hread, ReadLine.line?, ReadLine.read_error] at h
            subst h; simp at hm
        | line l =>
          cases fm with
          | none => left; exact ⟨l, rfl⟩
          | some e =>
            obtain ⟨w', h', hinfo⟩ := fill_info_some l 0 0
            have hread := read_mode_sync_line_changed
              (g_object_freeze_notify { g_object_new with file := some f, path := f.path }).1
              l _ (by simp [g_object_new, g_object_freeze_notify]) hinfo
            simp [dy_sysfs_mode_monitor_new, hread] at h
            subst h; simp at hm

/-- C7: in every successful construction no `notify::mode-id` is emitted
and no handler is called at any step, from entry up to and including the
thaw that ends it.  When the initial read caches a line, `mode_id` goes from
absent to that line and the reader raises one notification, which is
dropped, no handler being connected to the new object: it is not kept for
the thaw, and the monitor is returned unfrozen with nothing queued.  On an
empty file nothing is raised. -/
theorem new_fires_no_notification (file : Option GFile) (env : NewEnv) (r : NewResult)
    (m : DySysfsModeMonitor)
    (h : dy_sysfs_mode_monitor_new file env = .done r) (hm : r.monitor = some m) :
    Event.notify_emitted ∉ r.trace ∧ Event.handler_called ∉ r.trace ∧
    (∃ before, r.trace = .freeze :: (before ++ [.thaw])) ∧
    m.freeze_count = 0 ∧ m.notify_queued = false ∧
    ((∃ l, env.read = .stream (.line l) ∧ m.mode_info.mode_id = some l ∧
        r.trace.count .notify_raised = 1) ∨
     (env.read = .stream .eof ∧ m.mode_info.mode_id = none ∧
        r.trace.count .notify_raised = 0)) := by
  obtain ⟨f, rfl, ⟨l, rfl⟩ | rfl⟩ := new_success_cases file env r m h hm
  · obtain ⟨w', h', hinfo⟩ := fill_info_some l 0 0
    rw [new_on_line f l _ hinfo] at h
    injection h with h
    subst h
    simp only [Option.some.injEq] at hm
    subst hm
    exact ⟨by simp, by simp,
      ⟨[.file_read, .fill_info l, .notify_raised, .watch_created], rfl⟩, rfl, rfl,
      Or.inl ⟨l, rfl, rfl, by simp [List.count_cons]⟩⟩
  · rw [new_on_empty f] at h
    injection h with h
    subst h
    simp only [Option.some.injEq] at hm
    subst hm
    exact ⟨by simp, by simp, ⟨[.file_read, .watch_created], rfl⟩, rfl, rfl,
      Or.inr ⟨rfl, rfl, by simp [List.count_cons]⟩⟩

theorem new_fires_no_notification_witness :
    Event.notify_emitted ∉
      [Event.freeze, .file_read, .fill_info (ascii "D:1920x1080i-60"), .notify_raised,
        .watch_created, .thaw] ∧
    Event.handler_called ∉
      [Event.freeze, .file_read, .fill_info (ascii "D:1920x1080i-60"), .notify_raised,
        .watch_created, .thaw] ∧
    (∃ before,
      [Event.freeze, .file_read, .fill_info (ascii "D:1920x1080i-60"), .notify_raised,
        .watch_created, .thaw] = .freeze :: (before ++ [.thaw])) ∧
    monitor_1080.freeze_count = 0 ∧ monitor_1080.notify_queued = false ∧
    ((∃ l, FileRead.stream (.line (ascii "D:1920x1080i-60")) = .stream (.line l) ∧
        monitor_1080.mode_info.mode_id = some l ∧
        [Event.freeze, .file_read, .fill_info (ascii "D:1920x1080i-60"), .notify_raised,
          .watch_created, .thaw].count .notify_raised = 1) ∨
     (FileRead.stream (.line (ascii "D:1920x1080i-60")) = .stream .eof ∧
        monitor_1080.mode_info.mode_id = none ∧
        [Event.freeze, .file_read, .fill_info (ascii "D:1920x1080i-60"), .notify_raised,
          .watch_created, .thaw].count .notify_raised = 0)) :=
  new_fires_no_notification (some mode_file)
    { g_access := none, read := .stream (.line (ascii "D:1920x1080i-60")),
      g_file_monitor_file := none }
    { monitor := some monitor_1080, error := none,
      trace := [.freeze, .file_read, .fill_info (ascii "D:1920x1080i-60"), .notify_raised,
                .watch_created, .thaw] }
    monitor_1080
    (new_on_line mode_file (ascii "D:1920x1080i-60")
      ⟨some (ascii "D:1920x1080i-60"), 1920, 1080⟩ rfl)
    rfl

/-! ## Settled events -/

theorem on_changed_other_event (event : GFileMonitorEvent) (fs : FileRead)
    (monitor : DySysfsModeMonitor) (h : event ≠ .CHANGES_DONE_HINT) :
    on_file_monitor_changed event fs monitor = .done (monitor, []) := by
  simp [on_file_monitor_changed, h]

theorem on_changed_open_failure (e : GError) (monitor : DySysfsModeMonitor) :
    on_file_monitor_changed .CHANGES_DONE_HINT (.failed e) monitor =
      .done (monitor, [.file_read, .warning monitor.path e.message]) := by
  simp [on_file_monitor_changed, dy_sysfs_mode_monitor_read_mode_sync]

theorem notify_by_pspec_no_fill (o : DySysfsModeMonitor) (t : CString) :
    Event.fill_info t ∉ (g_object_notify_by_pspec o).2 := by
  unfold g_object_notify_by_pspec
  split_ifs <;> simp [emit_notify]

theorem on_changed_line (l : CString) (monitor : DySysfsModeMonitor) :
    ∃ m tr, on_file_monitor_changed .CHANGES_DONE_HINT (.stream (.line l)) monitor =
        .done (m, tr) ∧
      m.mode_info.mode_id = some l ∧ m.filemon = monitor.filemon ∧
      (Consistent monitor.mode_info →
        ∀ w h, dy_sysfs_mode_monitor_fill_info_from_mode_id ⟨some l, w, h⟩ = .done m.mode_info) ∧
      ∀ t, Event.fill_info t ∈ tr → t = l := by
  obtain ⟨w', h', hinfo⟩ := fill_info_some l 0 0
  by_cases hsame : monitor.mode_info.mode_id = some l
  · have hread := read_mode_sync_same monitor (.line l) hsame
    refine ⟨monitor, [.file_read], ?_, hsame, rfl, ?_, ?_⟩
    · simp [on_file_monitor_changed, hread, ReadLine.line?, ReadLine.read_error]
    · intro hc w h
      obtain ⟨fc, nq, nh, ⟨mid, pw, ph⟩, fm, fl, p⟩ := monitor
      simp only at hsame hc ⊢
      subst hsame
      rw [consistent_fill l pw ph _ hc hinfo, ← hinfo]
      exact fill_info_indep _ _ _ _ _
    · intro t ht; simp at ht
  · have hread := read_mode_sync_line_changed monitor l _ hsame hinfo
    refine ⟨(g_object_notify_by_pspec
        { monitor with mode_info := ⟨some l, w', h'⟩ }).1,
      .file_read :: .fill_info l :: (g_object_notify_by_pspec
        { monitor with mode_info := ⟨some l, w', h'⟩ }).2,
      by simp only [on_file_monitor_changed, hread, if_true], ?_, ?_, ?_, ?_⟩
    · simp [notify_by_pspec_mode_info]
    · unfold g_object_notify_by_pspec; split_ifs <;> rfl
    · intro _ w h
      simp only [notify_by_pspec_mode_info]
      rw [← hinfo]; exact fill_info_indep _ _ _ _ _
    · intro t ht
      simp only [List.mem_cons, Event.fill_info.injEq, reduceCtorEq, false_or] at ht
      rcases ht with ht | ht
      · exact ht
      · exact absurd ht (notify_by_pspec_no_fill _ t)

theorem on_changed_consistent (event : GFileMonitorEvent) (fs : FileRead)
    (monitor m : DySysfsModeMonitor) (tr : List Event) (hc : Consistent monitor.mode_info)
    (h : on_file_monitor_changed event fs monitor = .done (m, tr)) :
    Consistent m.mode_info := by
  by_cases he : event = .CHANGES_DONE_HINT
  · simp only [on_file_monitor_changed, he, if_true] at h
    cases hr : dy_sysfs_mode_monitor_read_mode_sync monitor fs with
    | undefined => simp [hr] at h
    | done r =>
      have hcr := read_mode_sync_consistent monitor fs r hc hr
      simp only [hr] at h
      split at h
      · injection h with h
        injection h with h1 h2
        rw [← h1]; exact hcr
      · split at h
        · cases h
        · injection h with h
          injection h with h1 h2
          rw [← h1]; exact hcr
  · rw [on_changed_other_event event fs monitor he] at h
    injection h with h
    injection h with h1 h2
    rw [← h1]; exact hc

theorem run_lines_defined (evs : List (GFileMonitorEvent × FileRead)) :
    ∀ (monitor : DySysfsModeMonitor), (∀ e ∈ evs, line_or_open_failure e = true) →
    ∃ m tr, run monitor evs = .done (m, tr) ∧
      (monitor.mode_info.mode_id.isSome = true → m.mode_info.mode_id.isSome = true) ∧
      m.filemon = monitor.filemon ∧
      ∀ t, Event.fill_info t ∈ tr → ∃ e ∈ evs, e.2 = .stream (.line t) := by
  induction evs with
  | nil => intro monitor _; exact ⟨monitor, [], rfl, id, rfl, by simp⟩
  | cons e rest ih =>
    intro monitor hev
    obtain ⟨event, fs⟩ := e
    have hstep : ∃ m1 tr1, on_file_monitor_changed event fs monitor = .done (m1, tr1) ∧
        (monitor.mode_info.mode_id.isSome = true → m1.mode_info.mode_id.isSome = true) ∧
        m1.filemon = monitor.filemon ∧
        ∀ t, Event.fill_info t ∈ tr1 → fs = .stream (.line t) := by
      have hok := hev (event, fs) (by simp)
      by_cases he : event = .CHANGES_DONE_HINT
      · subst he
        cases fs with
        | failed err =>
          exact ⟨_, _, on_changed_open_failure err monitor, id, rfl, by simp⟩
        | stream first =>
          cases first with
          | line l =>
            obtain ⟨m1, tr1, h1, h2, h3, -, h5⟩ := on_changed_line l monitor
            exact ⟨m1, tr1, h1, fun _ => by simp [h2], h3, fun t ht => by rw [h5 t ht]⟩
          | eof => simp [line_or_open_failure] at hok
          | failed e => simp [line_or_open_failure] at hok
      · exact ⟨_, _, on_changed_other_event event fs monitor he, id, rfl, by simp⟩
    obtain ⟨m1, tr1, h1, h2, h3, h4⟩ := hstep
    obtain ⟨m2, tr2, h5, h6, h7, h8⟩ := ih m1 (fun e he => hev e (List.mem_cons_of_mem _ he))
    refine ⟨m2, tr1 ++ tr2, by simp [run, h1, h5], fun h => h6 (h2 h), by rw [h7, h3], ?_⟩
    intro t ht
    rcases List.mem_append.1 ht with ht | ht
    · exact ⟨(event, fs), by simp, h4 t ht⟩
    · obtain ⟨e, he, hte⟩ := h8 t ht
      exact ⟨e, List.mem_cons_of_mem _ he, hte⟩

theorem run_consistent (evs : List (GFileMonitorEvent × FileRead)) :
    ∀ (monitor m : DySysfsModeMonitor) (tr : List Event), Consistent monitor.mode_info →
    run monitor evs = .done (m, tr) → Consistent m.mode_info := by
  induction evs with
  | nil =>
    intro monitor m tr hc h
    simp only [run] at h
    injection h with h
    injection h with h1 h2
    rw [← h1]; exact hc
  | cons e rest ih =>
    intro monitor m tr hc h
    obtain ⟨event, fs⟩ := e
    simp only [run] at h
    cases h1 : on_file_monitor_changed event fs monitor with
    | undefined => simp [h1] at h
    | done p1 =>
      obtain ⟨m1, tr1⟩ := p1
      have hc1 := on_changed_consistent event fs monitor m1 tr1 hc h1
      simp only [h1] at h
      cases h2 : run m1 rest with
      | undefined => simp [h2] at h
      | done p2 =>
        obtain ⟨m2, tr2⟩ := p2
        simp only [h2] at h
        injection h with h
        injection h with h3 h4
        rw [← h3]
        exact ih m1 m2 tr2 hc1 h2

theorem new_consistent (file : Option GFile) (env : NewEnv) (r : NewResult)
    (m : DySysfsModeMonitor)
    (h : dy_sysfs_mode_monitor_new file env = .done r) (hm : r.monitor = some m) :
    Consistent m.mode_info := by
  obtain ⟨f, rfl, ⟨l, rfl⟩ | rfl⟩ := new_success_cases file env r m h hm
  · obtain ⟨w', h', hinfo⟩ := fill_info_some l 0 0
    rw [new_on_line f l _ hinfo] at h
    injection h with h
    subst h
    simp only [Option.some.injEq] at hm
    subst hm
    exact fill_info_consistent l 0 0 _ hinfo
  · rw [new_on_empty f] at h
    injection h with h
    subst h
    simp only [Option.some.injEq] at hm
    subst hm
    exact ⟨rfl, rfl⟩

/-- C10, as stated, fails: constructing on an empty file succeeds and returns
a monitor whose `mode_id` is absent, and it is still absent after a settled
event that finds the file empty. -/
theorem new_on_empty_file_leaves_mode_id_absent :
    ∃ r m, dy_sysfs_mode_monitor_new (some mode_file)
        { g_access := none, read := .stream .eof, g_file_monitor_file := none } = .done r ∧
      r.monitor = some m ∧ m.mode_info.mode_id = none ∧
      run m [(.CHANGES_DONE_HINT, .stream .eof)] = .done (m, [.file_read]) :=
  ⟨_, _, new_on_empty mode_file, rfl, rfl, by
    have hread := read_mode_sync_same
      { freeze_count := 0, notify_queued := false, notify_handlers := 0,
        mode_info := ⟨none, 0, 0⟩,
        filemon := some { rate_limit := 1000, changed_connected := true },
        file := some mode_file, path := mode_file.path } .eof rfl
    simp [run, on_file_monitor_changed, hread, ReadLine.line?, ReadLine.read_error]⟩

/-- C10, amended: after a successful construction `mode_id` is absent exactly
when the initial read found the file empty; and over every sequence of
events whose settled reads each return a line or fail at `g_file_read`, the
run completes, a present `mode_id` stays present, the parser is entered only
on lines those reads returned, and the watch stays installed. -/
theorem mode_id_present_across_lines (file : Option GFile) (env : NewEnv) (r : NewResult)
    (monitor : DySysfsModeMonitor) (evs : List (GFileMonitorEvent × FileRead))
    (h : dy_sysfs_mode_monitor_new file env = .done r) (hm : r.monitor = some monitor)
    (hev : ∀ e ∈ evs, line_or_open_failure e = true) :
    (monitor.mode_info.mode_id = none ↔ env.read = .stream .eof) ∧
    ∃ m tr, run monitor evs = .done (m, tr) ∧
      (monitor.mode_info.mode_id.isSome = true → m.mode_info.mode_id.isSome = true) ∧
      (∀ t, Event.fill_info t ∈ tr → ∃ e ∈ evs, e.2 = .stream (.line t)) ∧
      m.filemon = monitor.filemon ∧ monitor.filemon.isSome = true := by
  obtain ⟨m, tr, h1, h2, h3, h4⟩ := run_lines_defined evs monitor hev
  obtain ⟨f, rfl, ⟨l, rfl⟩ | rfl⟩ := new_success_cases file env r monitor h hm
  · obtain ⟨w', h', hinfo⟩ := fill_info_some l 0 0
    rw [new_on_line f l _ hinfo] at h
    injection h with h
    subst h
    simp only [Option.some.injEq] at hm
    subst hm
    exact ⟨by simp, m, tr, h1, h2, h4, h3, rfl⟩
  · rw [new_on_empty f] at h
    injection h with h
    subst h
    simp only [Option.some.injEq] at hm
    subst hm
    exact ⟨by simp, m, tr, h1, h2, h4, h3, rfl⟩

theorem mode_id_present_across_lines_witness :
    (monitor_1080.mode_info.mode_id = none ↔
      FileRead.stream (.line (ascii "D:1920x1080i-60")) = .stream .eof) ∧
    ∃ m tr, run monitor_1080
        [(.CHANGES_DONE_HINT, .failed io_error),
         (.CHANGED, .stream .eof),
         (.CHANGES_DONE_HINT, .stream (.line (ascii "D:1280x720p-60")))] = .done (m, tr) ∧
      (monitor_1080.mode_info.mode_id.isSome = true → m.mode_info.mode_id.isSome = true) ∧
      (∀ t, Event.fill_info t ∈ tr →
        ∃ e ∈ [(GFileMonitorEvent.CHANGES_DONE_HINT, FileRead.failed io_error),
               (.CHANGED, .stream .eof),
               (.CHANGES_DONE_HINT, .stream (.line (ascii "D:1280x720p-60")))],
          e.2 = .stream (.line t)) ∧
      m.filemon = monitor_1080.filemon ∧ monitor_1080.filemon.isSome = true :=
  mode_id_present_across_lines (some mode_file)
    { g_access := none, read := .stream (.line (ascii "D:1920x1080i-60")),
      g_file_monitor_file := none }
    { monitor := some monitor_1080, error := none,
      trace := [.freeze, .file_read, .fill_info (ascii "D:1920x1080i-60"), .notify_raised,
                .watch_created, .thaw] }
    monitor_1080 _
    (new_on_line mode_file (ascii "D:1920x1080i-60")
      ⟨some (ascii "D:1920x1080i-60"), 1920, 1080⟩ rfl)
    rfl
    (by decide)

/-- A settled event whose `g_file_read` fails leaves the monitor exactly as
it was, warning only, and a following settled event that reads the line `l`
ends with `l` cached and the fields the parser gives for it. -/
theorem open_failure_then_line_recovers (monitor : DySysfsModeMonitor) (e : GError)
    (l : CString) (hc : Consistent monitor.mode_info) :
    ∃ m tr, run monitor [(.CHANGES_DONE_HINT, .failed e),
        (.CHANGES_DONE_HINT, .stream (.line l))] = .done (m, tr) ∧
      m.mode_info.mode_id = some l ∧ m.filemon = monitor.filemon ∧
      ∀ w h, dy_sysfs_mode_monitor_fill_info_from_mode_id ⟨some l, w, h⟩ = .done m.mode_info := by
  obtain ⟨m, tr, h1, h2, h3, h4, -⟩ := on_changed_line l monitor
  exact ⟨m, .file_read :: .warning monitor.path e.message :: tr,
    by simp [run, on_changed_open_failure, h1], h2, h3, h4 hc⟩

end Dinghy
